import Mathlib

/-!
Verification of the huntress news-extraction core against its specification.

The TypeScript source is shallowly embedded: strings are modelled as `List Char`
(`Str`), JavaScript numbers appearing in scoring formulas as `ℚ` (exact
rationals; the source arithmetic stays far from double-precision rounding
boundaries at every input considered here), `null`-able values as `Option`.
Definitions follow the source files:
  * `helpers` (part_001): the `Compare` trigram matcher;
  * `NewsExtract` (part_000): images, publish-date choice, authors, status,
    language, and `clean_extracted_content`;
  * `GeneralParser` (part_000 copy / general_parser.ts): `extractTitle`,
    `calculateContentScore`.
-/

/-- Strings are modelled as lists of characters. -/
abbrev Str := List Char

/-- `s.toUpperCase()` (ASCII, as exercised by the vocabulary data). -/
def upperStr (s : Str) : Str := s.map Char.toUpper

/-- `s.toLowerCase()` (ASCII). -/
def lowerStr (s : Str) : Str := s.map Char.toLower

/-- Is `pre` a prefix of `s`?  (Used to model `String.startsWith` and as the
basic block of substring search.) -/
def prefixB : Str → Str → Bool
  | [], _ => true
  | _ :: _, [] => false
  | a :: as, b :: bs => a == b && prefixB as bs

/-- Does `needle` occur as a contiguous substring of `hay`?
Models `String.includes` / an unanchored regex literal test. -/
def containsB (needle : Str) : Str → Bool
  | [] => prefixB needle []
  | c :: rest => prefixB needle (c :: rest) || containsB needle rest

/-- Case-insensitive substring test (a regex literal with the `i` flag). -/
def containsCI (needle hay : Str) : Bool :=
  containsB (lowerStr needle) (lowerStr hay)

/-! ## `Compare` — the trigram matcher (`helpers`, part_001) -/

/-- `__to_trigram`: the callback receives every 3-character window of
`("  " + word + "  ").toUpperCase()`.  `data.substring(i, i+3)` for
`0 ≤ i < data.length - 2` always has length 3, so the `length === 3` guard
in the source never rejects a window. -/
def windows3 : Str → List Str
  | a :: b :: c :: rest => [a, b, c] :: windows3 (b :: c :: rest)
  | _ => []

/-- The list of trigrams of `word`, in callback order. -/
def trigramsOf (word : Str) : List Str :=
  windows3 (upperStr ([' ', ' '] ++ word ++ [' ', ' ']))

/-- The trigram index `this.trigrams`: a JS object mapping a trigram to the
array of vocabulary-word indices containing it, modelled as an association
list (assignment replaces the stored array). -/
abbrev TriMap := List (Str × List Nat)

/-- `this.trigrams[arg] || []`: the stored index array, `[]` when absent.
(Stored arrays are never empty, so the empty default also identifies the
absent case, which in `eval` aborts the callback via the caught exception.) -/
def triLookup : TriMap → Str → List Nat
  | [], _ => []
  | (k, v) :: rest, t => if k = t then v else triLookup rest t

/-- `this.trigrams[arg] = words_for_trigram`: replace the binding or add it. -/
def triInsert : TriMap → Str → List Nat → TriMap
  | [], t, v => [(t, v)]
  | (k, w) :: rest, t, v => if k = t then (t, v) :: rest else (k, w) :: triInsert rest t v

/-- One `__set` callback invocation: append `word_index` to the trigram's
array unless it is already present, and store it back. -/
def addTrigram (idx : Nat) (m : TriMap) (t : Str) : TriMap :=
  let l := triLookup m t
  triInsert m t (if idx ∈ l then l else l ++ [idx])

/-- The state of a `Compare` instance after construction. -/
structure Compare where
  words : List Str
  word_trigram_count : List Nat
  trigrams : TriMap
  trigrams_count : List Nat
deriving Repr

/-- `__set`: skip null/empty/duplicate words; otherwise record the word and
feed every trigram to the callback.  `word_trigram_count[word_index]` is
incremented once per callback, so its final value is the number of trigrams
of the word. -/
def setWord (c : Compare) (w : Str) : Compare :=
  if w = [] ∨ w ∈ c.words then c
  else
    { words := c.words ++ [w]
      word_trigram_count := c.word_trigram_count ++ [(trigramsOf w).length]
      trigrams := (trigramsOf w).foldl (addTrigram c.words.length) c.trigrams
      trigrams_count := c.trigrams_count ++ [0] }

/-- The `Compare` constructor: `__set` every input word in order. -/
def buildCompare (words_list : List Str) : Compare :=
  words_list.foldl setWord ⟨[], [], [], []⟩

/-- The `word_matches` array at the end of `eval`'s trigram loop: for every
trigram of the candidate found in the index, each word index stored for that
trigram is incremented.  (When the trigram is absent the source callback
throws on `undefined.length` and the exception is swallowed; folding over the
empty default array is the same no-op.) -/
def evalMatches (c : Compare) (cand : Str) : List Nat :=
  (trigramsOf cand).foldl
    (fun wm t =>
      (triLookup c.trigrams t).foldl (fun wm i => wm.set i (wm.getD i 0 + 1)) wm)
    (List.replicate c.words.length 0)

/-- One element of `eval`'s result.  The source stores the similarity as the
string `Math.round(percentage) + "%"`; we model the rounded number. -/
structure ScoreEntry where
  word : Str
  matchCount : Nat
  similarity : Nat
deriving Repr, DecidableEq

/-- `Math.round(m / n * 100)` for naturals with `n > 0` (JS rounds half up:
`Math.round(x) = ⌊x + 1/2⌋` for `x ≥ 0`). -/
def jsRoundPct (m n : Nat) : Nat := (200 * m + n) / (2 * n)

/-- `eval`: keep every vocabulary word whose match percentage
`word_matches[i] / word_trigram_count[i] * 100` is at least 49 (the source
compares the raw quotient, before rounding: `percentage >= 49` is
`100 * matches ≥ 49 * count` over exact rationals, and every stored count is
positive), then stable-sort descending by match count
(`result.sort((a, b) => b.matches - a.matches)`; ECMAScript mandates a stable
sort, and a stable sort under a total preorder has a unique result, here
realised by insertion sort). -/
def evalEntries (c : Compare) (cand : Str) : List ScoreEntry :=
  let wm := evalMatches c cand
  let raw := (List.range c.trigrams_count.length).filterMap fun i =>
    let count := c.word_trigram_count.getD i 0
    let m := wm.getD i 0
    if 49 * count ≤ 100 * m then
      some ⟨c.words.getD i [], m, jsRoundPct m count⟩
    else
      none
  raw.insertionSort fun a b => b.matchCount ≤ a.matchCount

/-! ## `NewsExtract` field logic (part_000) -/

/-- JS truthiness of a `string | null` value: `null` and `""` are falsy. -/
def strTruthy : Option Str → Bool
  | some s => !s.isEmpty
  | none => false

/-- The caller-visible result record (`NewsExtractData`), restricted to the
fields produced by `get_scraper_api_response` that the claims mention. -/
structure NewsExtractData where
  article_title : Option Str
  article_authors : Option (List Str)
  article_published_date : Option Str
  article_images : Option (List Str)
  article_content : Option Str
  article_language : Str
  article_status : Str
  article_error_status : Option Str
deriving Repr, DecidableEq

/-- `get_scraper_api_response` (part_000, lines 1491-1508), taking the class
fields set by the constructor: `article_status` is `this.content ? "Done" :
"Error"` and `article_error_status` is `this.content ? null : "No Content"`. -/
def get_scraper_api_response (title : Option Str) (authors : Option (List Str))
    (publish_date : Option Str) (images : Option (List Str))
    (content : Option Str) (language : Str) : NewsExtractData :=
  { article_title := title
    article_authors := authors
    article_published_date := publish_date
    article_images := images
    article_content := content
    article_language := language
    article_status := if strTruthy content then "Done".toList else "Error".toList
    article_error_status := if strTruthy content then none else some ("No Content".toList) }

/-- `images[0].match(/logo|favicon|icon|pdf/i)`: unanchored case-insensitive
test for any of the four substrings. -/
def imageNoise (s : Str) : Bool :=
  containsCI "logo".toList s || containsCI "favicon".toList s ||
    containsCI "icon".toList s || containsCI "pdf".toList s

/-- The post-processing of `__get_images` (part_000, lines 593-627) applied to
the `top_image` list: keep URLs starting with `"http"`; if the first survivor
matches the noise regex, drop the whole list.  (The `typeof image ===
"string"` part of the filter is the element type of the model.) -/
def getImages (images : List Str) : List Str :=
  if images.length > 0 then
    match images.filter (fun image => prefixB "http".toList image) with
    | [] => []
    | first :: rest => if imageNoise first then [] else first :: rest
  else []

/-- The date-conflict resolution of `__get_publish_date` (part_000, lines
479-492): starting from the newspaper3k ISO string, the URL-derived ISO string
(when present) overrides it exactly when the two `substring(0, 10)` prefixes
differ. -/
def choosePublishDate (newspaper_iso : Str) (url_iso : Option Str) : Str :=
  match url_iso with
  | some u => if u.take 10 ≠ newspaper_iso.take 10 then u else newspaper_iso
  | none => newspaper_iso

/-- `x && x.length > 0` for a nullable string array. -/
def optNonempty : Option (List Str) → Bool
  | some l => l.length > 0
  | none => false

/-- The author fallback of `__get_newspaper3k_extract` (part_000, line 230):
`authors.length > 0 ? authors : ["No - Author"]`. -/
def newspaper3kAuthors (found : List Str) : List Str :=
  if found.length > 0 then found else ["No - Author".toList]

/-- `__get_authors` (part_000, lines 435-447).  The `Author` extraction is
external DOM work; its outcome is a parameter: `Except.error` models a thrown
exception (caught, yielding the sentinel), `Except.ok` the extractor's
`names` array (a `string[]`, never `null`). -/
def getAuthors (author : Option (List Str)) (articleAuthors : Option (List Str))
    (extractor : Except Unit (List Str)) : Option (List Str) :=
  if optNonempty author then author
  else if optNonempty articleAuthors then articleAuthors
  else
    match extractor with
    | .ok names => some names
    | .error _ => some ["No - Author".toList]

/-- The `meta_lang` computed by `__get_newspaper3k_extract` (part_000, line
197): `langElement ? langElement.getAttribute('lang') || 'en' : 'en'`, where
`langAttr` is the `lang` attribute of the `html[lang]` element when the
document has one. -/
def newspaperMetaLang (langAttr : Option Str) : Str :=
  match langAttr with
  | some l => if l ≠ [] then l else "en".toList
  | none => "en".toList

/-- Lines 136-138 of part_000:
`this.language = article && article.meta_lang ? article.meta_lang : "en";
if (!this.language) this.language = "en";` where `meta_lang` is `none` when
the newspaper3k extraction returned `null`. -/
def constructorLanguage (meta_lang : Option Str) : Str :=
  let lang := match meta_lang with
    | some ml => if ml ≠ [] then ml else "en".toList
    | none => "en".toList
  if lang = [] then "en".toList else lang

/-- The language reaching the result record: the newspaper3k `meta_lang`
(when an article object was produced) fed through the constructor. -/
def articleLanguage (article_parsed : Bool) (langAttr : Option Str) : Str :=
  constructorLanguage (if article_parsed then some (newspaperMetaLang langAttr) else none)

/-! ## `GeneralParser` (part_000 copy, general_parser.ts) -/

/-- `extractTitle` (part_000, lines 2224-2297).  The nine `titleSources`
closures perform DOM queries; each outcome is a parameter (`none` models both
a `null`/`undefined` result and a thrown, caught exception).  A candidate is
accepted when `title && title.length > 3 && title.length < 300`; when every
source fails the literal `"Untitled Page"` is returned. -/
def extractTitle : List (Option Str) → Str
  | [] => "Untitled Page".toList
  | none :: rest => extractTitle rest
  | some t :: rest =>
      if t ≠ [] ∧ 3 < t.length ∧ t.length < 300 then t else extractTitle rest

/-- A candidate element as seen by `calculateContentScore`: its `className`,
its `id` attribute, and the sizes of its `querySelectorAll('p')` /
`querySelectorAll('a')` result lists. -/
structure DomElem where
  className : Str
  idAttr : Str
  pCount : Nat
  linkCount : Nat
deriving Repr

/-- `contentKeywords` (general_parser.ts line 565 / part_000 line 2504). -/
def contentKeywords : List Str :=
  ["content".toList, "article".toList, "post".toList, "story".toList,
    "text".toList, "body".toList]

/-- `navKeywords` (general_parser.ts line 573 / part_000 line 2512). -/
def navKeywords : List Str :=
  ["nav".toList, "menu".toList, "sidebar".toList, "footer".toList,
    "header".toList, "ads".toList, "comment".toList]

/-- `calculateContentScore` (general_parser.ts lines 556-588, identical copy
in part_000 lines 2495-2527).  Only `element.className` is consulted for the
keyword bonuses and penalties; JS number arithmetic is modelled over ℚ. -/
def calculateContentScore (element : DomElem) (text : Str) : ℚ :=
  let score0 : ℚ := text.length
  let score1 : ℚ := score0 + 50 * element.pCount
  let className := lowerStr element.className
  let score2 := contentKeywords.foldl
    (fun s keyword => if containsB keyword className then s + 100 else s) score1
  let score3 := navKeywords.foldl
    (fun s keyword => if containsB keyword className then s - 200 else s) score2
  let linkRatio : ℚ := element.linkCount / max ((text.length : ℚ) / 100) 1
  let score4 := if linkRatio > 3/10 then score3 - linkRatio * 100 else score3
  max 0 score4

/-- Modelled from the spec (§4.3): the scoring formula as the specification
states it, with the keyword bonuses and penalties counted over the element's
class *or id* (`#content_keywords_in_class_or_id`).  Written only to compare
against `calculateContentScore`, which reads the class alone. -/
def specContentScore (element : DomElem) (text : Str) : ℚ :=
  let inClassOrId (keyword : Str) : Bool :=
    containsB keyword (lowerStr element.className) ||
      containsB keyword (lowerStr element.idAttr)
  let base : ℚ := (text.length : ℚ) + 50 * element.pCount
    + 100 * ((contentKeywords.countP (fun k => inClassOrId k)) : ℚ)
    - 200 * ((navKeywords.countP (fun k => inClassOrId k)) : ℚ)
  let linkRatio : ℚ := element.linkCount / max ((text.length : ℚ) / 100) 1
  let withPenalty := if linkRatio > 3/10 then base - linkRatio * 100 else base
  max 0 withPenalty

/-! ## A small JS-regex evaluator

`clean_extracted_content` (part_000, lines 1085-1489) is a pipeline of
`String.replace(regex, ...)` passes followed by a line filter.  Every regex it
uses is built from literals, character classes, `.`, greedy `* + ?`,
grouping, alternation, and edge anchors `^`/`$`.  None of the patterns used in
a *replacement* contains an alternation, so the span JS's backtracking engine
selects is the longest match at the leftmost position, which is what the
evaluator computes; patterns containing alternations appear only in boolean
`match` tests, where only existence matters. -/

inductive RE where
  | eps : RE
  | tok : (Char → Bool) → RE
  | cat : RE → RE → RE
  | alt : RE → RE → RE
  | star : RE → RE

/-- `r+` -/
def plusRE (r : RE) : RE := .cat r (.star r)

/-- `r?` -/
def optRE (r : RE) : RE := .alt r .eps

/-- Iterated (`star`) matching, given the length sets of the child pattern:
all lengths reachable by one or more child matches of positive length, plus
the empty iteration.  `fuel` only bounds the recursion; every iteration
consumes at least one character, so `s.length + 1` is always enough. -/
def starLens (f : Str → List Nat) : Nat → Str → List Nat
  | 0, _ => [0]
  | fuel + 1, s =>
      (f s).foldl
        (fun acc n1 =>
          if n1 = 0 then acc
          else
            (starLens f fuel (s.drop n1)).foldl
              (fun acc n2 => if (n1 + n2) ∈ acc then acc else (n1 + n2) :: acc)
              acc)
        [0]

/-- All lengths `n` (duplicate-free) such that `r` matches the first `n`
characters of `s`. -/
def matchLens : RE → Str → List Nat
  | .eps, _ => [0]
  | .tok _, [] => []
  | .tok f, c :: _ => if f c then [1] else []
  | .cat r1 r2, s =>
      (matchLens r1 s).foldl
        (fun acc n1 =>
          (matchLens r2 (s.drop n1)).foldl
            (fun acc n2 => if (n1 + n2) ∈ acc then acc else (n1 + n2) :: acc) acc)
        []
  | .alt r1 r2, s =>
      (matchLens r2 s).foldl
        (fun acc n => if n ∈ acc then acc else n :: acc)
        (matchLens r1 s)
  | .star r, s => starLens (fun s2 => matchLens r s2) (s.length + 1) s

/-- A JS regex as used by the source: a core expression with optional edge
anchors and the multiline flag (case-insensitivity is compiled into the
character predicates). -/
structure JSPat where
  bol : Bool := false
  eol : Bool := false
  mflag : Bool := false
  core : RE

/-- May a match end after `n` of the remaining characters `s`?  `$` accepts
the end of input, and with the `m` flag also a position before `'\n'`. -/
def okEnd (p : JSPat) (s : Str) (n : Nat) : Bool :=
  if p.eol then
    match s.drop n with
    | [] => true
    | c :: _ => p.mflag && c == '\n'
  else true

/-- Longest admissible match length of `p` at the current position (`none`
when the position does not match, `some 0` for an empty match). -/
def bestMatchAt (p : JSPat) (s : Str) (atBol : Bool) : Option Nat :=
  if p.bol && !atBol then none
  else
    ((matchLens p.core s).filter (fun n => okEnd p s n)).foldl
      (fun acc n => match acc with
        | none => some n
        | some m => some (max m n))
      none

/-- `String.replace(p, repl)` with the `g` flag: scan left to right, replace
each leftmost-longest match, resume after it; a zero-length match keeps the
current character and advances by one (as JS does by bumping `lastIndex`). -/
def replaceGo (fuel : Nat) (p : JSPat) (repl : Str) (s : Str) (atBol : Bool) : Str :=
  match fuel, s with
  | 0, s => s
  | _, [] => []
  | fuel + 1, c :: rest =>
    match bestMatchAt p (c :: rest) atBol with
    | some (n + 1) =>
        repl ++ replaceGo fuel p repl ((c :: rest).drop (n + 1))
          (((c :: rest).take (n + 1)).getLastD ' ' == '\n')
    | some 0 => c :: replaceGo fuel p repl rest (c == '\n')
    | none => c :: replaceGo fuel p repl rest (c == '\n')

/-- One global-replace pass over the whole string. -/
def runReplace (p : JSPat) (repl : Str) (s : Str) : Str :=
  replaceGo (s.length + 1) p repl s true

/-- `s.match(p) !== null`: does `p` match anywhere in `s`? -/
def testGo (fuel : Nat) (p : JSPat) (s : Str) (atBol : Bool) : Bool :=
  match fuel, s with
  | 0, _ => false
  | _ + 1, [] => (bestMatchAt p [] atBol).isSome
  | fuel + 1, c :: rest =>
      (bestMatchAt p (c :: rest) atBol).isSome || testGo fuel p rest (c == '\n')

/-- Unanchored existence test for `p` in `s`. -/
def testPat (p : JSPat) (s : Str) : Bool :=
  testGo (s.length + 1) p s true

/-! ### Character classes and pattern combinators -/

/-- JS `\s` (the inputs considered are ASCII). -/
def isSpaceC (c : Char) : Bool :=
  c == ' ' || c == '\t' || c == '\n' || c == '\r' || c == '\x0b' || c == '\x0c'

/-- JS `\w` = `[A-Za-z0-9_]`. -/
def isWordC (c : Char) : Bool := c.isAlpha || c.isDigit || c == '_'

/-- JS `.` (never matches `'\n'`; the `m` flag does not change this). -/
def dotRE : RE := .tok (fun c => c != '\n')

/-- `\s` -/
def wsRE : RE := .tok isSpaceC

/-- `\w` -/
def wordRE : RE := .tok isWordC

/-- `\d` -/
def digitRE : RE := .tok Char.isDigit

/-- A literal character. -/
def chrRE (c : Char) : RE := .tok (fun x => x == c)

/-- A case-insensitive literal character. -/
def chrCiRE (c : Char) : RE := .tok (fun x => x.toLower == c.toLower)

/-- A literal string. -/
def litRE (s : String) : RE := (s.toList.map chrRE).foldr .cat .eps

/-- A case-insensitive literal string. -/
def litCiRE (s : String) : RE := (s.toList.map chrCiRE).foldr .cat .eps

/-- Concatenation of a list of pieces. -/
def catRE (rs : List RE) : RE := rs.foldr .cat .eps

/-- Alternation of a list of branches (used only in boolean tests). -/
def altRE : List RE → RE
  | [] => .eps
  | [r] => r
  | r :: rest => .alt r (altRE rest)

/-- An unanchored pattern. -/
def pat (r : RE) : JSPat := { core := r }

/-- An unanchored literal pattern such as `/adsbygoogle/g`. -/
def litP (s : String) : JSPat := { core := litRE s }

/-- `/<literal>.*$/gm`: a literal and the rest of its line. -/
def lineTailP (s : String) : JSPat :=
  { eol := true, mflag := true, core := .cat (litRE s) (.star dotRE) }

/-- `[a-zA-Z_]` -/
def identStartRE : RE := .tok (fun c => c.isAlpha || c == '_')

/-- `[\w\-]` -/
def identCharRE : RE := .tok (fun c => isWordC c || c == '-')

/-- `[^x]` for a single excluded character. -/
def notChrRE (c : Char) : RE := .tok (fun x => x != c)

/-- `\.[a-zA-Z_][\w\-]*`: a CSS class-name token. -/
def cssNameRE : RE := catRE [chrRE '.', identStartRE, .star identCharRE]

/-- `\#[a-zA-Z_][\w\-]*`: a CSS id token. -/
def cssIdRE : RE := catRE [chrRE '#', identStartRE, .star identCharRE]

/-- `\([^)]*\)` -/
def parenGroupRE : RE := catRE [chrRE '(', .star (notChrRE ')'), chrRE ')']

/-- `"[^"]*"` -/
def quotedRE : RE := catRE [chrRE '"', .star (notChrRE '"'), chrRE '"']

/-! ### The replacement passes of `clean_extracted_content`

Each entry carries the source regex it translates (all are applied with an
empty replacement, via `content.replace(pattern, '')`). -/

/-- Lines 1089-1119 of part_000, in order. -/
def preReplaces : List JSPat := [
  -- /\.[a-zA-Z_][\w\-]*\s*\{[^}]*\}/g
  pat (catRE [cssNameRE, .star wsRE, chrRE '\x7b', .star (notChrRE '\x7d'), chrRE '\x7d']),
  -- /@[a-zA-Z_][\w\-]*\s*\{[^}]*\}/g
  pat (catRE [chrRE '@', identStartRE, .star identCharRE, .star wsRE,
    chrRE '\x7b', .star (notChrRE '\x7d'), chrRE '\x7d']),
  -- /\#[a-zA-Z_][\w\-]*\s*\{[^}]*\}/g
  pat (catRE [cssIdRE, .star wsRE, chrRE '\x7b', .star (notChrRE '\x7d'), chrRE '\x7d']),
  -- /[a-zA-Z\-]+\s*:\s*[^;{}]+;?/g
  pat (catRE [plusRE (.tok (fun c => c.isAlpha || c == '-')), .star wsRE, chrRE ':',
    .star wsRE, plusRE (.tok (fun c => c != ';' && c != '\x7b' && c != '\x7d')),
    optRE (chrRE ';')]),
  -- /\([^)]*\)\s*=>\s*[^;]+/g
  pat (catRE [parenGroupRE, .star wsRE, litRE "=>", .star wsRE, plusRE (notChrRE ';')]),
  -- /\s*=\s*"[^"]*";\s*/g
  pat (catRE [.star wsRE, chrRE '=', .star wsRE, quotedRE, chrRE ';', .star wsRE]),
  -- /\s*=\s*<[^>]*>[^<]*<\/[^>]*>;\s*/g
  pat (catRE [.star wsRE, chrRE '=', .star wsRE, chrRE '<', .star (notChrRE '>'),
    chrRE '>', .star (notChrRE '<'), litRE "</", .star (notChrRE '>'), chrRE '>',
    chrRE ';', .star wsRE]),
  -- /\([^)]*\)\s*=>\s*\w+\s*===/g
  pat (catRE [parenGroupRE, .star wsRE, litRE "=>", .star wsRE, plusRE wordRE,
    .star wsRE, litRE "==="]),
  -- /function\s+\w+\s*\([^)]*\)\s*\{[^}]*\}/g
  pat (catRE [litRE "function", plusRE wsRE, plusRE wordRE, .star wsRE, parenGroupRE,
    .star wsRE, chrRE '\x7b', .star (notChrRE '\x7d'), chrRE '\x7d']),
  -- /\/\*[^*]*\*+(?:[^/*][^*]*\*+)*\//g
  pat (catRE [litRE "/*", .star (notChrRE '*'), plusRE (chrRE '*'),
    .star (catRE [.tok (fun c => c != '/' && c != '*'), .star (notChrRE '*'),
      plusRE (chrRE '*')]),
    chrRE '/']),
  -- /\/\/.*$/gm
  { eol := true, mflag := true, core := .cat (litRE "//") (.star dotRE) },
  -- /\w+\s*\.\s*\w+\s*=\s*[^;]+;/g
  pat (catRE [plusRE wordRE, .star wsRE, chrRE '.', .star wsRE, plusRE wordRE,
    .star wsRE, chrRE '=', .star wsRE, plusRE (notChrRE ';'), chrRE ';']),
  -- /\w+\s*\.\s*appendChild\([^)]*\);?/g
  pat (catRE [plusRE wordRE, .star wsRE, chrRE '.', .star wsRE, litRE "appendChild",
    parenGroupRE, optRE (chrRE ';')]),
  -- /\w+\s*\.\s*innerHTML\s*=\s*[^;]+;?/g
  pat (catRE [plusRE wordRE, .star wsRE, chrRE '.', .star wsRE, litRE "innerHTML",
    .star wsRE, chrRE '=', .star wsRE, plusRE (notChrRE ';'), optRE (chrRE ';')]),
  -- /document\.[a-zA-Z]+\([^)]*\)/g
  pat (catRE [litRE "document.", plusRE (.tok Char.isAlpha), parenGroupRE]),
  -- /window\.[a-zA-Z]+\([^)]*\)/g
  pat (catRE [litRE "window.", plusRE (.tok Char.isAlpha), parenGroupRE]),
  -- /\w+\s*=\s*\w+\s*\|\|\s*\[\]/g
  pat (catRE [plusRE wordRE, .star wsRE, chrRE '=', .star wsRE, plusRE wordRE,
    .star wsRE, litRE "||", .star wsRE, litRE "[]"]),
  -- /\.push\([^)]*\)/g
  pat (catRE [litRE ".push", parenGroupRE]),
  -- /addEventListener\([^)]*\)/g
  pat (catRE [litRE "addEventListener", parenGroupRE]),
  -- /querySelector[All]*\([^)]*\)/g
  pat (catRE [litRE "querySelector", .star (.tok (fun c => c == 'A' || c == 'l')),
    parenGroupRE]),
  -- /createElement\([^)]*\)/g
  pat (catRE [litRE "createElement", parenGroupRE]),
  -- /insertBefore\([^)]*\)/g
  pat (catRE [litRE "insertBefore", parenGroupRE]),
  -- /insertAdjacentHTML\([^)]*\)/g
  pat (catRE [litRE "insertAdjacentHTML", parenGroupRE])]

/-- The `unwantedPatterns` array (part_000, lines 1122-1359), in order. -/
def cleanPatterns : List JSPat := [
  -- /\.[a-zA-Z_][\w\-]*\s*>\s*\.[a-zA-Z_][\w\-]*/g
  pat (catRE [cssNameRE, .star wsRE, chrRE '>', .star wsRE, cssNameRE]),
  -- /\.[a-zA-Z_][\w\-]*\s*,\s*\.[a-zA-Z_][\w\-]*/g
  pat (catRE [cssNameRE, .star wsRE, chrRE ',', .star wsRE, cssNameRE]),
  -- /\.[a-zA-Z_][\w\-]*\s+\.[a-zA-Z_][\w\-]*/g
  pat (catRE [cssNameRE, plusRE wsRE, cssNameRE]),
  -- /\#[a-zA-Z_][\w\-]*\s*>\s*\.[a-zA-Z_][\w\-]*/g
  pat (catRE [cssIdRE, .star wsRE, chrRE '>', .star wsRE, cssNameRE]),
  -- /\.tdi_\d+/g
  pat (catRE [litRE ".tdi_", plusRE digitRE]),
  -- /\.wpb_wrapper/g
  litP ".wpb_wrapper",
  -- /\.tdc-elements/g
  litP ".tdc-elements",
  -- /\.vc_column-inner/g
  litP ".vc_column-inner",
  -- /\.tdb_single_/g
  litP ".tdb_single_",
  -- /\.td-theme-wrap/g
  litP ".td-theme-wrap",
  -- /\.td-block-/g
  litP ".td-block-",
  -- /\.td-post-/g
  litP ".td-post-",
  -- /\.td-icon-/g
  litP ".td-icon-",
  -- /\.td-social-/g
  litP ".td-social-",
  -- /\.addtoany_/g
  litP ".addtoany_",
  -- /\.a2a_/g
  litP ".a2a_",
  -- /block_tdi_\d+\./g
  pat (catRE [litRE "block_tdi_", plusRE digitRE, chrRE '.']),
  -- /tdBlocksArray\./g
  litP "tdBlocksArray.",
  -- /adsbygoogle/g
  litP "adsbygoogle",
  -- /window\.adsbygoogle/g
  litP "window.adsbygoogle",
  -- /FacebookTwitterPinterestWhatsApp/g
  litP "FacebookTwitterPinterestWhatsApp",
  -- /Facebook.*Twitter.*Pinterest.*WhatsApp/g
  pat (catRE [litRE "Facebook", .star dotRE, litRE "Twitter", .star dotRE,
    litRE "Pinterest", .star dotRE, litRE "WhatsApp"]),
  -- /const\s+publicNoticesLink\s*=/g
  pat (catRE [litRE "const", plusRE wsRE, litRE "publicNoticesLink", .star wsRE, chrRE '=']),
  -- /const\s+businessLinkExists\s*=/g
  pat (catRE [litRE "const", plusRE wsRE, litRE "businessLinkExists", .star wsRE, chrRE '=']),
  -- /Array\.from\([^)]*\)\.find/g
  pat (catRE [litRE "Array.from", parenGroupRE, litRE ".find"]),
  -- /Array\.from\([^)]*\)\.some/g
  pat (catRE [litRE "Array.from", parenGroupRE, litRE ".some"]),
  -- /\.textContent\.trim\(\)/g
  litP ".textContent.trim()",
  -- /businessLink\.className/g
  litP "businessLink.className",
  -- /businessLink\.href/g
  litP "businessLink.href",
  -- /businessLink\.innerHTML/g
  litP "businessLink.innerHTML",
  -- /sep\.className/g
  litP "sep.className",
  -- /insertBefore\([^)]*\)/g
  pat (catRE [litRE "insertBefore", parenGroupRE]),
  -- /const\s+\w+\s*=\s*\[.*\]/g
  pat (catRE [litRE "const", plusRE wsRE, plusRE wordRE, .star wsRE, chrRE '=',
    .star wsRE, chrRE '[', .star dotRE, chrRE ']']),
  -- /if\s*\([^)]*\)\s*\{/g
  pat (catRE [litRE "if", .star wsRE, parenGroupRE, .star wsRE, chrRE '\x7b']),
  -- /if\s*\([^)]*\s*&&\s*[^)]*$/g   ($ without m: end of input)
  { eol := true, mflag := false,
    core := catRE [litRE "if", .star wsRE, chrRE '(', .star (notChrRE ')'),
      .star wsRE, litRE "&&", .star wsRE, .star (notChrRE ')')] },
  -- /\}\s*else\s*\{/g
  pat (catRE [chrRE '\x7d', .star wsRE, litRE "else", .star wsRE, chrRE '\x7b']),
  -- /\.includes\([^)]*\)/g
  pat (catRE [litRE ".includes", parenGroupRE]),
  -- /\.style\.display\s*=/g
  pat (catRE [litRE ".style.display", .star wsRE, chrRE '=']),
  -- /li\.textContent\.trim\(\)/g
  litP "li.textContent.trim()",
  -- /\([^)]*\)\s*=>\s*[^;]+/g
  pat (catRE [parenGroupRE, .star wsRE, litRE "=>", .star wsRE, plusRE (notChrRE ';')]),
  -- /\s*=\s*"[^"]*";\s*/g
  pat (catRE [.star wsRE, chrRE '=', .star wsRE, quotedRE, chrRE ';', .star wsRE]),
  -- /\s*=\s*<[^>]*>[^<]*<\/[^>]*>;\s*/g
  pat (catRE [.star wsRE, chrRE '=', .star wsRE, chrRE '<', .star (notChrRE '>'),
    chrRE '>', .star (notChrRE '<'), litRE "</", .star (notChrRE '>'), chrRE '>',
    chrRE ';', .star wsRE]),
  -- /\([^)]*\)\s*=>\s*\w+\s*===/g
  pat (catRE [parenGroupRE, .star wsRE, litRE "=>", .star wsRE, plusRE wordRE,
    .star wsRE, litRE "==="]),
  -- /a\s*=>\s*a\s*===\s*"[^"]*"/g
  pat (catRE [chrRE 'a', .star wsRE, litRE "=>", .star wsRE, chrRE 'a', .star wsRE,
    litRE "===", .star wsRE, quotedRE]),
  -- /\s*=\s*"tdb-[^"]*"/g
  pat (catRE [.star wsRE, chrRE '=', .star wsRE, litRE "\"tdb-",
    .star (notChrRE '"'), chrRE '"']),
  -- /\s*=\s*"td-[^"]*"/g
  pat (catRE [.star wsRE, chrRE '=', .star wsRE, litRE "\"td-",
    .star (notChrRE '"'), chrRE '"']),
  -- /function\s+\w+\s*\([^)]*\)\s*\{[^}]*\}/g
  pat (catRE [litRE "function", plusRE wsRE, plusRE wordRE, .star wsRE, parenGroupRE,
    .star wsRE, chrRE '\x7b', .star (notChrRE '\x7d'), chrRE '\x7d']),
  -- /\/\*[^*]*\*+(?:[^/*][^*]*\*+)*\//g
  pat (catRE [litRE "/*", .star (notChrRE '*'), plusRE (chrRE '*'),
    .star (catRE [.tok (fun c => c != '/' && c != '*'), .star (notChrRE '*'),
      plusRE (chrRE '*')]),
    chrRE '/']),
  -- /\/\/.*$/gm
  { eol := true, mflag := true, core := .cat (litRE "//") (.star dotRE) },
  -- /\w+\s*\.\s*appendChild\([^)]*\);?/g
  pat (catRE [plusRE wordRE, .star wsRE, chrRE '.', .star wsRE, litRE "appendChild",
    parenGroupRE, optRE (chrRE ';')]),
  -- /\w+\s*\.\s*innerHTML\s*=\s*[^;]+;?/g
  pat (catRE [plusRE wordRE, .star wsRE, chrRE '.', .star wsRE, litRE "innerHTML",
    .star wsRE, chrRE '=', .star wsRE, plusRE (notChrRE ';'), optRE (chrRE ';')]),
  -- /\w+\s*\.\s*className\s*=\s*[^;]+;?/g
  pat (catRE [plusRE wordRE, .star wsRE, chrRE '.', .star wsRE, litRE "className",
    .star wsRE, chrRE '=', .star wsRE, plusRE (notChrRE ';'), optRE (chrRE ';')]),
  -- /\w+\s*\.\s*src\s*=\s*[^;]+;?/g
  pat (catRE [plusRE wordRE, .star wsRE, chrRE '.', .star wsRE, litRE "src",
    .star wsRE, chrRE '=', .star wsRE, plusRE (notChrRE ';'), optRE (chrRE ';')]),
  -- /\w+\s*\.\s*allowFullscreen\s*=\s*[^;]+;?/g
  pat (catRE [plusRE wordRE, .star wsRE, chrRE '.', .star wsRE, litRE "allowFullscreen",
    .star wsRE, chrRE '=', .star wsRE, plusRE (notChrRE ';'), optRE (chrRE ';')]),
  -- /\w+\s*\.\s*controls\s*=\s*[^;]+;?/g
  pat (catRE [plusRE wordRE, .star wsRE, chrRE '.', .star wsRE, litRE "controls",
    .star wsRE, chrRE '=', .star wsRE, plusRE (notChrRE ';'), optRE (chrRE ';')]),
  -- /\w+\s*\.\s*autoplay\s*=\s*[^;]+;?/g
  pat (catRE [plusRE wordRE, .star wsRE, chrRE '.', .star wsRE, litRE "autoplay",
    .star wsRE, chrRE '=', .star wsRE, plusRE (notChrRE ';'), optRE (chrRE ';')]),
  -- /openVideoModal\([^)]*\)/g
  pat (catRE [litRE "openVideoModal", parenGroupRE]),
  -- /close\.className/g
  litP "close.className",
  -- /close\.innerHTML/g
  litP "close.innerHTML",
  -- /contentElement\./g
  litP "contentElement.",
  -- /wrapper\.appendChild/g
  litP "wrapper.appendChild",
  -- /modal\.appendChild/g
  litP "modal.appendChild",
  -- /td_column_number\s*=/g
  pat (catRE [litRE "td_column_number", .star wsRE, chrRE '=']),
  -- /block_type\s*=/g
  pat (catRE [litRE "block_type", .star wsRE, chrRE '=']),
  -- /found_posts\s*=/g
  pat (catRE [litRE "found_posts", .star wsRE, chrRE '=']),
  -- /header_color\s*=/g
  pat (catRE [litRE "header_color", .star wsRE, chrRE '=']),
  -- /ajax_pagination_infinite_stop\s*=/g
  pat (catRE [litRE "ajax_pagination_infinite_stop", .star wsRE, chrRE '=']),
  -- /max_num_pages\s*=/g
  pat (catRE [litRE "max_num_pages", .star wsRE, chrRE '=']),
  -- /Discover\s+more/g
  pat (catRE [litRE "Discover", plusRE wsRE, litRE "more"]),
  -- /ArtTelevisionPortable\s+speakers/g
  pat (catRE [litRE "ArtTelevisionPortable", plusRE wsRE, litRE "speakers"]),
  -- /CadburyMilkManila/g
  litP "CadburyMilkManila",
  -- /Online\s+TV\s+streaming\s+services/g
  pat (catRE [litRE "Online", plusRE wsRE, litRE "TV", plusRE wsRE,
    litRE "streaming", plusRE wsRE, litRE "services"]),
  -- /TVMusicEntertainment\s+center/g
  pat (catRE [litRE "TVMusicEntertainment", plusRE wsRE, litRE "center"]),
  -- /Soybean/g
  litP "Soybean",
  -- /^\d+\s+\d+\s+\d+\s+\d+\s+\d+Share.*$/gm
  { bol := true, eol := true, mflag := true,
    core := catRE [plusRE digitRE, plusRE wsRE, plusRE digitRE, plusRE wsRE,
      plusRE digitRE, plusRE wsRE, plusRE digitRE, plusRE wsRE, plusRE digitRE,
      litRE "Share", .star dotRE] },
  -- /Filtered by:.*$/gm
  lineTailP "Filtered by:",
  -- /Tags:.*$/gm
  lineTailP "Tags:",
  -- /Next Story.*$/gm
  lineTailP "Next Story",
  -- /VIEW MORE.*$/gm
  lineTailP "VIEW MORE",
  -- /Most Popular.*$/gm
  lineTailP "Most Popular",
  -- /Other Stories.*$/gm
  lineTailP "Other Stories",
  -- /Recommended for you.*$/gm
  lineTailP "Recommended for you",
  -- /LOADING CONTENT.*$/gm
  lineTailP "LOADING CONTENT",
  -- /LOAD MORE ARTICLES.*$/gm
  lineTailP "LOAD MORE ARTICLES",
  -- /RETRY LOADING.*$/gm
  lineTailP "RETRY LOADING",
  -- /advertisement/gi
  pat (litCiRE "advertisement"),
  -- /Need a wellness break\?.*$/gm
  lineTailP "Need a wellness break?",
  -- /Sign up for.*$/gm
  lineTailP "Sign up for",
  -- /Stay up-to-date.*$/gm
  lineTailP "Stay up-to-date",
  -- /Please enter a valid email address.*$/gm
  lineTailP "Please enter a valid email address",
  -- /Your email is safe with us.*$/gm
  lineTailP "Your email is safe with us",
  -- /At a Glance.*$/gm
  lineTailP "At a Glance",
  -- /Brand Talk.*$/gm
  lineTailP "Brand Talk",
  -- /Sports.*$/gm
  lineTailP "Sports",
  -- /Pinoy Abroad.*$/gm
  lineTailP "Pinoy Abroad",
  -- /SciTech.*$/gm
  lineTailP "SciTech",
  -- /Showbiz.*$/gm
  lineTailP "Showbiz",
  -- /Lifestyle.*$/gm
  lineTailP "Lifestyle",
  -- /Opinion.*$/gm
  lineTailP "Opinion",
  -- /Hashtag.*$/gm
  lineTailP "Hashtag",
  -- /News.*$/gm
  lineTailP "News",
  -- /Money.*$/gm
  lineTailP "Money",
  -- /\.\w+\s*\{[^}]*\}/gm   (no anchors: the m flag is inert)
  pat (catRE [chrRE '.', plusRE wordRE, .star wsRE, chrRE '\x7b',
    .star (notChrRE '\x7d'), chrRE '\x7d']),
  -- /var\s+.*=.*;.*$/gm
  { eol := true, mflag := true,
    core := catRE [litRE "var", plusRE wsRE, .star dotRE, chrRE '=', .star dotRE,
      chrRE ';', .star dotRE] },
  -- /function\s*\(.*\).*$/gm
  { eol := true, mflag := true,
    core := catRE [litRE "function", .star wsRE, chrRE '(', .star dotRE, chrRE ')',
      .star dotRE] },
  -- /csell_zoneid.*$/gm
  lineTailP "csell_zoneid",
  -- /csell_article_tags.*$/gm
  lineTailP "csell_article_tags",
  -- /crowdyPage.*$/gm
  lineTailP "crowdyPage",
  -- /csell_isMobile.*$/gm
  lineTailP "csell_isMobile",
  -- /csellViewsJson.*$/gm
  lineTailP "csellViewsJson",
  -- /\.AR_\d+.*$/gm
  { eol := true, mflag := true,
    core := catRE [litRE ".AR_", plusRE digitRE, .star dotRE] },
  -- /\.ob-widget.*$/gm
  lineTailP ".ob-widget",
  -- /background-image.*$/gm
  lineTailP "background-image",
  -- /background-size.*$/gm
  lineTailP "background-size",
  -- /width:\d+px.*$/gm
  { eol := true, mflag := true,
    core := catRE [litRE "width:", plusRE digitRE, litRE "px", .star dotRE] },
  -- /height:\d+px.*$/gm
  { eol := true, mflag := true,
    core := catRE [litRE "height:", plusRE digitRE, litRE "px", .star dotRE] },
  -- /padding:.*$/gm
  lineTailP "padding:",
  -- /margin:.*$/gm
  lineTailP "margin:",
  -- /color:.*$/gm
  lineTailP "color:",
  -- /font-size:.*$/gm
  lineTailP "font-size:",
  -- /font-family:.*$/gm
  lineTailP "font-family:",
  -- /text-decoration:.*$/gm
  lineTailP "text-decoration:",
  -- /display:.*$/gm
  lineTailP "display:",
  -- /box-sizing:.*$/gm
  lineTailP "box-sizing:",
  -- /@media.*$/gm
  lineTailP "@media",
  -- /-webkit-.*$/gm
  lineTailP "-webkit-",
  -- /-moz-.*$/gm
  lineTailP "-moz-",
  -- /border:.*$/gm
  lineTailP "border:",
  -- /overflow:.*$/gm
  lineTailP "overflow:",
  -- /position:.*$/gm
  lineTailP "position:",
  -- /float:.*$/gm
  lineTailP "float:",
  -- /clear:.*$/gm
  lineTailP "clear:",
  -- /flex:.*$/gm
  lineTailP "flex:",
  -- /justify-content:.*$/gm
  lineTailP "justify-content:",
  -- /align-items:.*$/gm
  lineTailP "align-items:",
  -- /font-weight:.*$/gm
  lineTailP "font-weight:",
  -- /border-radius:.*$/gm
  lineTailP "border-radius:",
  -- /filter:.*$/gm
  lineTailP "filter:",
  -- /transform:.*$/gm
  lineTailP "transform:",
  -- /transition:.*$/gm
  lineTailP "transition:",
  -- /animation:.*$/gm
  lineTailP "animation:",
  -- /z-index:.*$/gm
  lineTailP "z-index:",
  -- /opacity:.*$/gm
  lineTailP "opacity:",
  -- /visibility:.*$/gm
  lineTailP "visibility:",
  -- /cursor:.*$/gm
  lineTailP "cursor:",
  -- /text-align:.*$/gm
  lineTailP "text-align:",
  -- /vertical-align:.*$/gm
  lineTailP "vertical-align:",
  -- /line-height:.*$/gm
  lineTailP "line-height:",
  -- /letter-spacing:.*$/gm
  lineTailP "letter-spacing:",
  -- /text-transform:.*$/gm
  lineTailP "text-transform:",
  -- /white-space:.*$/gm
  lineTailP "white-space:",
  -- /word-wrap:.*$/gm
  lineTailP "word-wrap:",
  -- /word-break:.*$/gm
  lineTailP "word-break:",
  -- /text-overflow:.*$/gm
  lineTailP "text-overflow:",
  -- /list-style:.*$/gm
  lineTailP "list-style:",
  -- /table-layout:.*$/gm
  lineTailP "table-layout:",
  -- /border-collapse:.*$/gm
  lineTailP "border-collapse:",
  -- /caption-side:.*$/gm
  lineTailP "caption-side:",
  -- /empty-cells:.*$/gm
  lineTailP "empty-cells:",
  -- /content:.*$/gm
  lineTailP "content:",
  -- /quotes:.*$/gm
  lineTailP "quotes:",
  -- /counter-reset:.*$/gm
  lineTailP "counter-reset:",
  -- /counter-increment:.*$/gm
  lineTailP "counter-increment:",
  -- /resize:.*$/gm
  lineTailP "resize:",
  -- /outline:.*$/gm
  lineTailP "outline:",
  -- /outline-offset:.*$/gm
  lineTailP "outline-offset:",
  -- /box-shadow:.*$/gm
  lineTailP "box-shadow:",
  -- /text-shadow:.*$/gm
  lineTailP "text-shadow:",
  -- /clip:.*$/gm
  lineTailP "clip:",
  -- /clip-path:.*$/gm
  lineTailP "clip-path:",
  -- /mask:.*$/gm
  lineTailP "mask:",
  -- /mask-image:.*$/gm
  lineTailP "mask-image:",
  -- /mask-mode:.*$/gm
  lineTailP "mask-mode:",
  -- /mask-repeat:.*$/gm
  lineTailP "mask-repeat:",
  -- /mask-position:.*$/gm
  lineTailP "mask-position:",
  -- /mask-clip:.*$/gm
  lineTailP "mask-clip:",
  -- /mask-origin:.*$/gm
  lineTailP "mask-origin:",
  -- /mask-size:.*$/gm
  lineTailP "mask-size:",
  -- /mask-composite:.*$/gm
  lineTailP "mask-composite:",
  -- /mask-border:.*$/gm
  lineTailP "mask-border:",
  -- /mask-border-source:.*$/gm
  lineTailP "mask-border-source:",
  -- /mask-border-mode:.*$/gm
  lineTailP "mask-border-mode:",
  -- /mask-border-slice:.*$/gm
  lineTailP "mask-border-slice:",
  -- /mask-border-width:.*$/gm
  lineTailP "mask-border-width:",
  -- /mask-border-outset:.*$/gm
  lineTailP "mask-border-outset:",
  -- /mask-border-repeat:.*$/gm
  lineTailP "mask-border-repeat:",
  -- /mask-border:.*$/gm   (listed twice in the source)
  lineTailP "mask-border:",
  -- /&[a-zA-Z0-9#]+;/g
  pat (catRE [chrRE '&',
    plusRE (.tok (fun c => c.isAlpha || c.isDigit || c == '#')), chrRE ';']),
  -- /\\n\s*\\n/g
  pat (catRE [litRE "\\n", .star wsRE, litRE "\\n"]),
  -- /\\t/g
  litP "\\t",
  -- /\\"/g
  litP "\\\"",
  -- /\\\\/g
  litP "\\\\",
  -- /^\s*$/gm
  { bol := true, eol := true, mflag := true, core := .star wsRE },
  -- /\n\s*\n\s*\n/g
  pat (catRE [chrRE '\n', .star wsRE, chrRE '\n', .star wsRE, chrRE '\n']),
  -- /×/g
  litP "×",
  -- /‹›/g
  litP "‹›",
  -- /◀/g
  litP "◀",
  -- /▶/g
  litP "▶",
  -- /url\([^)]*\)/g
  pat (catRE [litRE "url", parenGroupRE]),
  -- /https?:\/\/[^\s]+/g
  pat (catRE [litRE "http", optRE (chrRE 's'), litRE "://",
    plusRE (.tok (fun c => !isSpaceC c))]),
  -- /data-src="[^"]*"/g
  pat (catRE [litRE "data-src=", quotedRE]),
  -- /data-widget-id="[^"]*"/g
  pat (catRE [litRE "data-widget-id=", quotedRE]),
  -- /data-ob-template="[^"]*"/g
  pat (catRE [litRE "data-ob-template=", quotedRE]),
  -- /typeof\s+[^;]+/g
  pat (catRE [litRE "typeof", plusRE wsRE, plusRE (notChrRE ';')]),
  -- /OBR\.extern\.researchWidget\(\)/g
  litP "OBR.extern.researchWidget()"]

/-! ### The line filter of `clean_extracted_content` (part_000, lines 1369-1480) -/

/-- `content.split('\n')`. -/
def splitNl : Str → List Str
  | [] => [[]]
  | c :: rest =>
    if c == '\n' then [] :: splitNl rest
    else
      match splitNl rest with
      | l :: ls => (c :: l) :: ls
      | [] => [[c]]

/-- `line.trim()`: strip leading and trailing whitespace. -/
def trimWs (s : Str) : Str :=
  ((s.dropWhile isSpaceC).reverse.dropWhile isSpaceC).reverse

/-- The `trimmed.match(...)` tests whose success drops the line (lines
1377-1409), in source order.  A top-level alternation in a boolean test is
either kept as an `altRE` or, when its branches carry their own `^` anchors
(the tdb and td attribute test), split into consecutive entries — for a pure
existence check the two forms agree. -/
def lineDropTests : List JSPat := [
  -- /^[0-9\s\-_×‹›◀▶]+$/
  { bol := true, eol := true,
    core := plusRE (.tok (fun c => c.isDigit || isSpaceC c || c == '-' || c == '_' ||
      c == '×' || c == '‹' || c == '›' || c == '◀' || c == '▶')) },
  -- /^\.[a-zA-Z_][\w\-]*\s*[>,\s]/
  { bol := true,
    core := catRE [cssNameRE, .star wsRE,
      .tok (fun c => c == '>' || c == ',' || isSpaceC c)] },
  -- /^\#[a-zA-Z_][\w\-]*\s*[>,\s]/
  { bol := true,
    core := catRE [cssIdRE, .star wsRE,
      .tok (fun c => c == '>' || c == ',' || isSpaceC c)] },
  -- /^[a-zA-Z\-]+\s*:\s*[^;{}]+;?\s*$/
  { bol := true, eol := true,
    core := catRE [plusRE (.tok (fun c => c.isAlpha || c == '-')), .star wsRE,
      chrRE ':', .star wsRE,
      plusRE (.tok (fun c => c != ';' && c != '\x7b' && c != '\x7d')),
      optRE (chrRE ';'), .star wsRE] },
  -- /\{[^}]*\}/
  pat (catRE [chrRE '\x7b', .star (notChrRE '\x7d'), chrRE '\x7d']),
  -- /\.tdi_\d+|\.wpb_wrapper|\.tdc-elements|\.vc_column|\.tdb_|\.td-/
  pat (altRE [catRE [litRE ".tdi_", plusRE digitRE], litRE ".wpb_wrapper",
    litRE ".tdc-elements", litRE ".vc_column", litRE ".tdb_", litRE ".td-"]),
  -- /document\.|window\.|addEventListener|querySelector|createElement/
  pat (altRE [litRE "document.", litRE "window.", litRE "addEventListener",
    litRE "querySelector", litRE "createElement"]),
  -- /block_tdi_\d+|tdBlocksArray|adsbygoogle/
  pat (altRE [catRE [litRE "block_tdi_", plusRE digitRE], litRE "tdBlocksArray",
    litRE "adsbygoogle"]),
  -- /const\s+\w+\s*=|Array\.from\(|\.textContent\.trim\(\)|\.className\s*=|\.href\s*=|\.innerHTML\s*=/
  pat (altRE [catRE [litRE "const", plusRE wsRE, plusRE wordRE, .star wsRE, chrRE '='],
    litRE "Array.from(", litRE ".textContent.trim()",
    catRE [litRE ".className", .star wsRE, chrRE '='],
    catRE [litRE ".href", .star wsRE, chrRE '='],
    catRE [litRE ".innerHTML", .star wsRE, chrRE '=']]),
  -- /if\s*\(.*\)\s*\{|else\s*\{|\}\s*else/
  pat (altRE [catRE [litRE "if", .star wsRE, chrRE '(', .star dotRE, chrRE ')',
      .star wsRE, chrRE '\x7b'],
    catRE [litRE "else", .star wsRE, chrRE '\x7b'],
    catRE [chrRE '\x7d', .star wsRE, litRE "else"]]),
  -- /if\s*\([^)]*\s*&&\s*[^)]*$/
  { eol := true,
    core := catRE [litRE "if", .star wsRE, chrRE '(', .star (notChrRE ')'),
      .star wsRE, litRE "&&", .star wsRE, .star (notChrRE ')')] },
  -- /FacebookTwitterPinterestWhatsApp|Discover\s+more|CadburyMilkManila/
  pat (altRE [litRE "FacebookTwitterPinterestWhatsApp",
    catRE [litRE "Discover", plusRE wsRE, litRE "more"], litRE "CadburyMilkManila"]),
  -- /td_column_number|block_type|found_posts|header_color|max_num_pages/
  pat (altRE [litRE "td_column_number", litRE "block_type", litRE "found_posts",
    litRE "header_color", litRE "max_num_pages"]),
  -- /\([^)]*\)\s*=>\s*\w+\s*===/
  pat (catRE [parenGroupRE, .star wsRE, litRE "=>", .star wsRE, plusRE wordRE,
    .star wsRE, litRE "==="]),
  -- /^\s*=\s*"[^"]*";\s*$/
  { bol := true, eol := true,
    core := catRE [.star wsRE, chrRE '=', .star wsRE, quotedRE, chrRE ';', .star wsRE] },
  -- /^\s*=\s*<[^>]*>/
  { bol := true,
    core := catRE [.star wsRE, chrRE '=', .star wsRE, chrRE '<', .star (notChrRE '>'),
      chrRE '>'] },
  -- /a\s*=>\s*a\s*===\s*"[^"]*"/
  pat (catRE [chrRE 'a', .star wsRE, litRE "=>", .star wsRE, chrRE 'a', .star wsRE,
    litRE "===", .star wsRE, quotedRE]),
  -- /^\s*=\s*"tdb-|^\s*=\s*"td-/  (first branch)
  { bol := true,
    core := catRE [.star wsRE, chrRE '=', .star wsRE, litRE "\"tdb-"] },
  -- /^\s*=\s*"tdb-|^\s*=\s*"td-/  (second branch)
  { bol := true,
    core := catRE [.star wsRE, chrRE '=', .star wsRE, litRE "\"td-"] },
  -- /function\s+\w+\s*\([^)]*\)\s*\{/
  pat (catRE [litRE "function", plusRE wsRE, plusRE wordRE, .star wsRE, parenGroupRE,
    .star wsRE, chrRE '\x7b']),
  -- /\/\*.*\*\/|\/\/.*/
  pat (altRE [catRE [litRE "/*", .star dotRE, litRE "*/"],
    catRE [litRE "//", .star dotRE]]),
  -- /\w+\s*\.\s*(appendChild|innerHTML|className|src|allowFullscreen|controls|autoplay)\s*=/
  pat (catRE [plusRE wordRE, .star wsRE, chrRE '.', .star wsRE,
    altRE [litRE "appendChild", litRE "innerHTML", litRE "className", litRE "src",
      litRE "allowFullscreen", litRE "controls", litRE "autoplay"],
    .star wsRE, chrRE '=']),
  -- /openVideoModal|contentElement\.|wrapper\.|modal\./
  pat (altRE [litRE "openVideoModal", litRE "contentElement.", litRE "wrapper.",
    litRE "modal."]),
  -- /close\.className|close\.innerHTML/
  pat (altRE [litRE "close.className", litRE "close.innerHTML"])]

/-- The `technicalPatterns` array (lines 1412-1476), in source order; the line
is dropped when any of them matches. -/
def technicalTests : List JSPat := [
  -- /\.\w+\s*\{/
  pat (catRE [chrRE '.', plusRE wordRE, .star wsRE, chrRE '\x7b']),
  -- /var\s+/
  pat (catRE [litRE "var", plusRE wsRE]),
  -- /function\s*\(/
  pat (catRE [litRE "function", .star wsRE, chrRE '(']),
  -- /csell_/
  litP "csell_",
  -- /\.AR_/
  litP ".AR_",
  -- /\.ob-/
  litP ".ob-",
  -- /background-/
  litP "background-",
  -- /width:/
  litP "width:",
  -- /height:/
  litP "height:",
  -- /padding:/
  litP "padding:",
  -- /margin:/
  litP "margin:",
  -- /color:/
  litP "color:",
  -- /font-/
  litP "font-",
  -- /text-/
  litP "text-",
  -- /display:/
  litP "display:",
  -- /box-/
  litP "box-",
  -- /@media/
  litP "@media",
  -- /-webkit-/
  litP "-webkit-",
  -- /-moz-/
  litP "-moz-",
  -- /border:/
  litP "border:",
  -- /overflow:/
  litP "overflow:",
  -- /position:/
  litP "position:",
  -- /float:/
  litP "float:",
  -- /clear:/
  litP "clear:",
  -- /flex:/
  litP "flex:",
  -- /justify-/
  litP "justify-",
  -- /align-/
  litP "align-",
  -- /font-weight:/
  litP "font-weight:",
  -- /border-radius:/
  litP "border-radius:",
  -- /filter:/
  litP "filter:",
  -- /transform:/
  litP "transform:",
  -- /transition:/
  litP "transition:",
  -- /animation:/
  litP "animation:",
  -- /z-index:/
  litP "z-index:",
  -- /opacity:/
  litP "opacity:",
  -- /visibility:/
  litP "visibility:",
  -- /cursor:/
  litP "cursor:",
  -- /text-align:/
  litP "text-align:",
  -- /vertical-align:/
  litP "vertical-align:",
  -- /line-height:/
  litP "line-height:",
  -- /letter-spacing:/
  litP "letter-spacing:",
  -- /text-transform:/
  litP "text-transform:",
  -- /white-space:/
  litP "white-space:",
  -- /word-/
  litP "word-",
  -- /text-overflow:/
  litP "text-overflow:",
  -- /list-style:/
  litP "list-style:",
  -- /table-/
  litP "table-",
  -- /border-collapse:/
  litP "border-collapse:",
  -- /caption-side:/
  litP "caption-side:",
  -- /empty-cells:/
  litP "empty-cells:",
  -- /content:/
  litP "content:",
  -- /quotes:/
  litP "quotes:",
  -- /counter-/
  litP "counter-",
  -- /resize:/
  litP "resize:",
  -- /outline:/
  litP "outline:",
  -- /box-shadow:/
  litP "box-shadow:",
  -- /text-shadow:/
  litP "text-shadow:",
  -- /clip:/
  litP "clip:",
  -- /mask:/
  litP "mask:",
  -- /url\(/
  litP "url(",
  -- /data-/
  litP "data-",
  -- /typeof/
  litP "typeof",
  -- /OBR\./
  litP "OBR."]

/-- The line filter: a line survives when its trimmed form is at least 20
characters long, none of the drop tests fires, and no technical pattern
occurs. -/
def keepLine (line : Str) : Bool :=
  let trimmed := trimWs line
  if trimmed.length < 20 then false
  else if lineDropTests.any (fun p => testPat p trimmed) then false
  else !(technicalTests.any (fun p => testPat p trimmed))

/-- `/\s+/g → ' '`. -/
def patWsPlus : JSPat := pat (plusRE wsRE)

/-- `/\n\s*\n/g → '\n'`. -/
def patNlWsNl : JSPat := pat (catRE [chrRE '\n', .star wsRE, chrRE '\n'])

/-- `clean_extracted_content` (part_000, lines 1085-1489): the guard for a
falsy argument, the direct replacement passes, the `unwantedPatterns` passes,
the line filter, and the final whitespace normalization
(`filteredLines.join('\n').replace(/\s+/g, ' ').replace(/\n\s*\n/g, '\n').trim()`). -/
def clean_extracted_content (content : Str) : Str :=
  if content = [] then []
  else
    let afterPre := preReplaces.foldl (fun s p => runReplace p [] s) content
    let afterPatterns := cleanPatterns.foldl (fun s p => runReplace p [] s) afterPre
    let filteredLines := (splitNl afterPatterns).filter keepLine
    trimWs (runReplace patNlWsNl ['\n']
      (runReplace patWsPlus [' '] (List.intercalate ['\n'] filteredLines)))

/-! ### Concrete inputs used in the analysis -/

/-- The 33-character vocabulary word (35 trigrams) used against C4. -/
def c4Word : Str := "ABCDEFGHIJKLMNOPQRSTUVWXYZ0123456".toList

/-- A candidate matching exactly 17 of `c4Word`'s 35 trigram slots:
17/35 = 48.57…%, which rounds to 49%. -/
def c4Cand : Str := "ABCDEFGHIJKLMNOPQ".toList

/-- The candidate separating class-based from class-or-id scoring: an element
whose `id` is "content" but whose `className` is empty. -/
def idOnlyElem : DomElem := ⟨[], "content".toList, 0, 0⟩

/-- A 40-character keyword-free text. -/
def fortyChars : Str := List.replicate 40 'a'

/-- The input refuting idempotence of the cleaner: two clean 20-character
lines whose join re-assembles the phrase "Sign up for" across the collapsed
line break.  (The filler character is matched by none of the cleaning
patterns.) -/
def cleanCex : Str := "%%%%%%%%%%%% Sign up\nfor %%%%%%%%%%%%%%%%".toList

instance : IsTotal ScoreEntry (fun a b => b.matchCount ≤ a.matchCount) :=
  ⟨fun a b => Nat.le_total b.matchCount a.matchCount⟩

instance : IsTrans ScoreEntry (fun a b => b.matchCount ≤ a.matchCount) :=
  ⟨fun _ _ _ h1 h2 => Nat.le_trans h2 h1⟩

/-- Invariant: every recorded word's trigrams all point back to its index. -/
def WordsIndexed (c : Compare) : Prop :=
  ∀ i w, c.words[i]? = some w → ∀ t ∈ trigramsOf w, i ∈ triLookup c.trigrams t

/-! ## Helper lemmas -/

theorem triLookup_triInsert (m : TriMap) (k : Str) (v : List Nat) (t : Str) :
    triLookup (triInsert m k v) t = if k = t then v else triLookup m t := by
  induction m with
  | nil => simp [triInsert, triLookup]
  | cons kv rest ih =>
    obtain ⟨k', v'⟩ := kv
    simp only [triInsert]
    by_cases h : k' = k
    · subst h
      by_cases h2 : k' = t <;> simp [triLookup, h2]
    · simp only [if_neg h, triLookup]
      by_cases h2 : k' = t
      · subst h2
        have h3 : ¬(k = k') := fun hh => h hh.symm
        simp [h3]
      · simp [h2, ih]

theorem mem_addTrigram_self (idx : Nat) (m : TriMap) (t : Str) :
    idx ∈ triLookup (addTrigram idx m t) t := by
  unfold addTrigram
  rw [triLookup_triInsert]
  simp only [if_pos rfl]
  by_cases hmem : idx ∈ triLookup m t <;> simp [hmem]

theorem mem_addTrigram_of_mem (j idx : Nat) (m : TriMap) (t t' : Str)
    (h : j ∈ triLookup m t') : j ∈ triLookup (addTrigram idx m t) t' := by
  unfold addTrigram
  rw [triLookup_triInsert]
  by_cases ht : t = t'
  · subst ht
    simp only [if_pos rfl]
    by_cases hmem : idx ∈ triLookup m t <;> simp [hmem, h]
  · simpa [ht] using h

theorem mem_foldl_addTrigram_of_mem (j idx : Nat) (ts : List Str) (m : TriMap)
    (t' : Str) (h : j ∈ triLookup m t') :
    j ∈ triLookup (ts.foldl (addTrigram idx) m) t' := by
  induction ts generalizing m with
  | nil => simpa using h
  | cons a ts ih => exact ih _ (mem_addTrigram_of_mem j idx m a t' h)

theorem mem_foldl_addTrigram_self (idx : Nat) (ts : List Str) (m : TriMap)
    (t : Str) : t ∈ ts → idx ∈ triLookup (ts.foldl (addTrigram idx) m) t := by
  induction ts generalizing m with
  | nil => intro h; cases h
  | cons a ts ih =>
    intro h
    rcases List.mem_cons.mp h with h' | h'
    · subst h'
      exact mem_foldl_addTrigram_of_mem idx idx ts _ t (mem_addTrigram_self idx m t)
    · exact ih _ h'

theorem wordsIndexed_setWord (c : Compare) (x : Str) (h : WordsIndexed c) :
    WordsIndexed (setWord c x) := by
  unfold setWord
  split
  · exact h
  · intro i w hi t ht
    simp only at hi
    rcases Nat.lt_trichotomy i c.words.length with hlt | heq | hgt
    · rw [List.getElem?_append_left hlt] at hi
      exact mem_foldl_addTrigram_of_mem i _ _ c.trigrams t (h i w hi t ht)
    · subst heq
      rw [List.getElem?_concat_length] at hi
      cases hi
      exact mem_foldl_addTrigram_self _ _ c.trigrams t ht
    · rw [List.getElem?_eq_none (by simpa using hgt)] at hi
      cases hi

theorem wordsIndexed_foldl (vocab : List Str) (c : Compare) (h : WordsIndexed c) :
    WordsIndexed (vocab.foldl setWord c) := by
  induction vocab generalizing c with
  | nil => exact h
  | cons a vocab ih => exact ih _ (wordsIndexed_setWord c a h)

theorem mem_words_setWord (c : Compare) (a w : Str) (h : w ∈ c.words) :
    w ∈ (setWord c a).words := by
  unfold setWord
  split
  · exact h
  · exact List.mem_append_left _ h

theorem mem_words_foldl (vocab : List Str) (c : Compare) (w : Str) (hne : w ≠ [])
    (h : w ∈ c.words ∨ w ∈ vocab) : w ∈ (vocab.foldl setWord c).words := by
  induction vocab generalizing c with
  | nil => simpa using h.resolve_right (by simp)
  | cons a vocab ih =>
    apply ih
    rcases h with h | h
    · exact Or.inl (mem_words_setWord c a w h)
    · rcases List.mem_cons.mp h with h' | h'
      · subst h'
        left
        unfold setWord
        split
        · rcases ‹w = [] ∨ w ∈ c.words› with h2 | h2
          · exact absurd h2 hne
          · exact h2
        · exact List.mem_append_right _ (List.mem_singleton.mpr rfl)
      · exact Or.inr h'

/-- Summing a constant over the satisfied elements of a fold. -/
theorem foldl_if_add_eq_countP (ks : List Str) (p : Str → Bool) (a c : ℚ) :
    ks.foldl (fun s k => if p k then s + c else s) a = a + c * (ks.countP p : ℚ) := by
  induction ks generalizing a with
  | nil => simp
  | cons k ks ih =>
    by_cases h : p k
    · simp only [List.foldl_cons, if_pos h, ih, List.countP_cons, h, if_pos]
      push_cast
      ring
    · simp only [List.foldl_cons, if_neg h, ih, List.countP_cons]
      simp [h]

/-! ## Claim theorems -/

/-- C1: For every extraction call that returns a result record, the record's
status field equals "Done" if and only if its content field is non-null and
non-empty; when content is unresolved (null), status is "Error". -/
theorem status_done_iff_content (title : Option Str) (authors : Option (List Str))
    (publish_date : Option Str) (images : Option (List Str))
    (content : Option Str) (language : Str) :
    ((get_scraper_api_response title authors publish_date images content
        language).article_status = "Done".toList ↔
      ∃ s, content = some s ∧ s ≠ []) ∧
    (content = none →
      (get_scraper_api_response title authors publish_date images content
        language).article_status = "Error".toList) := by
  constructor
  · cases content with
    | none => simp [get_scraper_api_response, strTruthy]
    | some s =>
      by_cases hs : s = [] <;>
        simp_all [get_scraper_api_response, strTruthy, List.isEmpty_iff]
  · intro h
    subst h
    simp [get_scraper_api_response, strTruthy]

/-- Witness for C1 at concrete inputs: non-empty content gives "Done",
null content gives "Error". -/
theorem status_done_iff_content_witness :
    (get_scraper_api_response none none none none (some ['x'])
      "en".toList).article_status = "Done".toList ∧
    (get_scraper_api_response none none none none none
      "en".toList).article_status = "Error".toList :=
  ⟨(status_done_iff_content none none none none (some ['x']) "en".toList).1.mpr
      ⟨['x'], rfl, by decide⟩,
    (status_done_iff_content none none none none none "en".toList).2 rfl⟩

/-- C2: when both a metadata publish date and a URL-derived date are found,
the URL-derived date is returned exactly when the first 10 characters of the
two ISO strings differ, and the metadata date otherwise; in particular
metadata 2024-01-05T00:00:00(.000)Z with URL-derived 2024-01-06 yields the
URL-derived date. -/
theorem publish_date_conflict_rule :
    (∀ m u : Str,
      (u.take 10 ≠ m.take 10 → choosePublishDate m (some u) = u) ∧
      (u.take 10 = m.take 10 → choosePublishDate m (some u) = m)) ∧
    choosePublishDate "2024-01-05T00:00:00.000Z".toList
        (some "2024-01-06T00:00:00.000Z".toList) =
      "2024-01-06T00:00:00.000Z".toList := by
  constructor
  · intro m u
    constructor
    · intro h
      simp [choosePublishDate, h]
    · intro h
      simp [choosePublishDate, h]
  · decide

/-- Witness for C2: differing day components at a concrete input. -/
theorem publish_date_conflict_rule_witness :
    choosePublishDate "2024-02-01".toList (some "2024-02-02".toList) =
      "2024-02-02".toList :=
  (publish_date_conflict_rule.1 "2024-02-01".toList "2024-02-02".toList).1
    (by decide)

/-- C3: the images list keeps only top-image URLs starting with "http"; if
the first survivor matches logo, favicon, icon or pdf (case-insensitively)
the entire list becomes empty; in particular
`["https://cdn.x/logo.png", "https://cdn.x/photo.jpg"]` yields `[]`. -/
theorem images_first_noise_rule :
    (∀ imgs : List Str,
      (imgs.filter (fun image => prefixB "http".toList image) = [] →
        getImages imgs = []) ∧
      (∀ first rest,
        imgs.filter (fun image => prefixB "http".toList image) = first :: rest →
          getImages imgs = if imageNoise first then [] else first :: rest)) ∧
    getImages ["https://cdn.x/logo.png".toList, "https://cdn.x/photo.jpg".toList]
      = [] := by
  constructor
  · intro imgs
    constructor
    · intro h
      cases imgs with
      | nil => rfl
      | cons a l =>
        unfold getImages
        rw [if_pos (by simp), h]
    · intro first rest h
      cases imgs with
      | nil => simp at h
      | cons a l =>
        unfold getImages
        rw [if_pos (by simp), h]
  · decide

/-- Witness for C3: the filter-empty and first-noise branches at concrete
inputs. -/
theorem images_first_noise_rule_witness :
    getImages ["ftp://x".toList] = [] ∧
    getImages ["http://a/logo.gif".toList, "http://b/pic.jpg".toList] = [] :=
  ⟨(images_first_noise_rule.1 ["ftp://x".toList]).1 (by decide),
    by
      have h := (images_first_noise_rule.1
        ["http://a/logo.gif".toList, "http://b/pic.jpg".toList]).2
        "http://a/logo.gif".toList ["http://b/pic.jpg".toList] (by decide)
      simpa using h⟩

/-- C8 counterexample: an extraction in which no author resolves (the
newspaper3k pass finds no author elements and substitutes its sentinel)
produces `["No - Author"]`, not `null`. -/
theorem authors_null_cex :
    getAuthors none (some (newspaper3kAuthors [])) (.ok [])
      = some ["No - Author".toList] ∧
    getAuthors none (some (newspaper3kAuthors [])) (.ok []) ≠ none := by
  decide

/-- C8 (amended): an exhausted author chain never yields `null` and never
raises: every path of `__get_authors` returns an array, and when nothing
resolves the array is the sentinel `["No - Author"]` (from the newspaper3k
fallback or from the catch handler). -/
theorem authors_sentinel_not_null :
    (∀ (author articleAuthors : Option (List Str)) (ext : Except Unit (List Str)),
      (getAuthors author articleAuthors ext).isSome = true) ∧
    newspaper3kAuthors [] = ["No - Author".toList] ∧
    getAuthors none none (.error ()) = some ["No - Author".toList] ∧
    getAuthors none (some (newspaper3kAuthors [])) (.ok [])
      = some ["No - Author".toList] := by
  refine ⟨?_, by decide, by decide, by decide⟩
  intro author articleAuthors ext
  unfold getAuthors
  split
  · cases author <;> simp_all [optNonempty]
  · split
    · cases articleAuthors <;> simp_all [optNonempty]
    · cases ext <;> simp

/-- C9 counterexample: when every title source fails, `extractTitle` returns
the literal "Untitled Page", which is not the claimed literal "Untitled". -/
theorem untitled_literal_cex :
    extractTitle [none, none, none, none, none, none, none, none, none]
        = "Untitled Page".toList ∧
    "Untitled Page".toList ≠ "Untitled".toList := by
  decide

/-- C9 (amended): if every title source fails to produce a valid title
(non-empty, length > 3 and < 300), the extractor returns the fixed literal
"Untitled Page". -/
theorem extract_title_fallback (sources : List (Option Str))
    (h : ∀ s ∈ sources, ∀ t, s = some t →
      ¬(t ≠ [] ∧ 3 < t.length ∧ t.length < 300)) :
    extractTitle sources = "Untitled Page".toList := by
  induction sources with
  | nil => rfl
  | cons s rest ih =>
    cases s with
    | none =>
      exact ih (fun s hs => h s (List.mem_cons_of_mem _ hs))
    | some t =>
      have ht := h (some t) (List.mem_cons_self _ _) t rfl
      simp only [extractTitle, if_neg ht]
      exact ih (fun s hs => h s (List.mem_cons_of_mem _ hs))

/-- Witness for C9 (amended): a too-short candidate and a missing source. -/
theorem extract_title_fallback_witness :
    extractTitle [some ['a', 'b'], none] = "Untitled Page".toList :=
  extract_title_fallback [some ['a', 'b'], none] (by decide)

/-- C10 counterexample: a document that declares an *empty* `lang` attribute
receives language "en", not the declared (empty) attribute value. -/
theorem language_empty_attr_cex :
    articleLanguage true (some []) = "en".toList ∧ "en".toList ≠ ([] : Str) := by
  decide

/-- C10 (amended): the result language equals the declared `lang` attribute
when one is present with a non-empty value, and is "en" otherwise (attribute
absent, attribute empty, or no parsed article); it is never empty. -/
theorem article_language_spec :
    (∀ attr : Str, attr ≠ [] → articleLanguage true (some attr) = attr) ∧
    articleLanguage true none = "en".toList ∧
    articleLanguage false none = "en".toList ∧
    articleLanguage true (some []) = "en".toList ∧
    (∀ (parsed : Bool) (attr : Option Str),
      (articleLanguage parsed attr).isEmpty = false) := by
  refine ⟨?_, by decide, by decide, by decide, ?_⟩
  · intro attr h
    simp [articleLanguage, newspaperMetaLang, constructorLanguage, h]
  · intro parsed attr
    cases parsed with
    | false => rfl
    | true =>
      cases attr with
      | none => rfl
      | some l =>
        by_cases h : l = []
        · subst h; rfl
        · simp [articleLanguage, newspaperMetaLang, constructorLanguage, h,
            List.isEmpty_iff]

/-- Witness for C10 (amended): a concrete non-empty attribute is returned
unchanged. -/
theorem article_language_spec_witness :
    articleLanguage true (some "fr".toList) = "fr".toList :=
  article_language_spec.1 "fr".toList (by decide)


/-- Subtracting a constant over the satisfied elements of a fold. -/
theorem foldl_if_sub_eq_countP (ks : List Str) (p : Str → Bool) (a c : ℚ) :
    ks.foldl (fun s k => if p k then s - c else s) a = a - c * (ks.countP p : ℚ) := by
  induction ks generalizing a with
  | nil => simp
  | cons k ks ih =>
    by_cases h : p k
    · simp only [List.foldl_cons, if_pos h, ih, List.countP_cons, h, if_pos]
      push_cast
      ring
    · simp only [List.foldl_cons, if_neg h, ih, List.countP_cons]
      simp [h]

/-- C6 counterexample: `calculateContentScore` reads only the element's
class, so an element whose *id* contains "content" (empty class, no
paragraphs, no links, 40 characters of text) scores 40, while the claimed
formula — keywords counted in class *or id* — assigns 140. -/
theorem content_score_id_cex :
    calculateContentScore idOnlyElem fortyChars = 40 ∧
    specContentScore idOnlyElem fortyChars = 140 ∧
    calculateContentScore idOnlyElem fortyChars ≠
      specContentScore idOnlyElem fortyChars := by
  have h1 : calculateContentScore idOnlyElem fortyChars = 40 := by
    simp [calculateContentScore, idOnlyElem, fortyChars, contentKeywords,
      navKeywords, lowerStr, containsB, prefixB]
  have h2 : specContentScore idOnlyElem fortyChars = 140 := by
    simp [specContentScore, idOnlyElem, fortyChars, contentKeywords, navKeywords,
      lowerStr, containsB, prefixB]
    norm_num [max_def]
  exact ⟨h1, h2, by rw [h1, h2]; norm_num⟩

/-- C6 (amended): the content score is
`max 0 (len(text) + 50·#paragraphs + 100·#content-keywords-in-class
- 200·#noise-keywords-in-class - penalty)`, where the link penalty
`linkRatio · 100` (`linkRatio = links / max(len(text)/100, 1)`) applies
exactly when `linkRatio > 0.3` — the keyword counts consult the class
attribute only, not the id. -/
theorem content_score_formula (element : DomElem) (text : Str) :
    calculateContentScore element text =
      max 0 ((text.length : ℚ) + 50 * (element.pCount : ℚ)
        + 100 * ((contentKeywords.countP
            (fun k => containsB k (lowerStr element.className))) : ℚ)
        - 200 * ((navKeywords.countP
            (fun k => containsB k (lowerStr element.className))) : ℚ)
        - (if ((element.linkCount : ℚ) / max ((text.length : ℚ) / 100) 1) > 3/10
            then ((element.linkCount : ℚ) / max ((text.length : ℚ) / 100) 1) * 100
            else 0)) := by
  unfold calculateContentScore
  dsimp only
  rw [foldl_if_add_eq_countP, foldl_if_sub_eq_countP]
  split <;> ring_nf

/-- Membership in `eval`'s result: exactly the vocabulary indices whose raw
percentage clears the threshold (compared before rounding). -/
theorem evalEntries_mem_iff (c : Compare) (cand : Str) (e : ScoreEntry) :
    e ∈ evalEntries c cand ↔
      ∃ i, i < c.trigrams_count.length ∧
        49 * c.word_trigram_count.getD i 0 ≤ 100 * (evalMatches c cand).getD i 0 ∧
        e = ⟨c.words.getD i [], (evalMatches c cand).getD i 0,
          jsRoundPct ((evalMatches c cand).getD i 0) (c.word_trigram_count.getD i 0)⟩ := by
  unfold evalEntries
  dsimp only
  rw [List.mem_insertionSort]
  simp only [List.mem_filterMap, List.mem_range]
  constructor
  · rintro ⟨i, hi, hsome⟩
    split_ifs at hsome with hc
    exact ⟨i, hi, hc, (Option.some.inj hsome).symm⟩
  · rintro ⟨i, hi, hc, he⟩
    exact ⟨i, hi, by rw [if_pos hc, he]⟩

/-- `eval`'s result is sorted descending by raw match count. -/
theorem evalEntries_sorted (c : Compare) (cand : Str) :
    (evalEntries c cand).Pairwise (fun a b => b.matchCount ≤ a.matchCount) := by
  unfold evalEntries
  dsimp only
  exact List.sorted_insertionSort _ _

/-- C5: for every vocabulary build, every token is recorded at some index and
every one of its trigrams (padding included) maps in the index to that
token's index. -/
theorem trigram_index_roundtrip (vocab : List Str) (w : Str) (hw : w ∈ vocab)
    (hne : w ≠ []) :
    ∃ i, (buildCompare vocab).words[i]? = some w ∧
      ∀ t ∈ trigramsOf w, i ∈ triLookup (buildCompare vocab).trigrams t := by
  have hmem : w ∈ (buildCompare vocab).words :=
    mem_words_foldl vocab ⟨[], [], [], []⟩ w hne (Or.inr hw)
  obtain ⟨i, hi⟩ := List.mem_iff_getElem?.mp hmem
  refine ⟨i, hi, fun t ht => ?_⟩
  exact wordsIndexed_foldl vocab ⟨[], [], [], []⟩ (by intro j v hj; simp at hj) i w hi t ht

/-- Witness for C5, at the source's author vocabulary. -/
theorem trigram_index_roundtrip_witness :
    ("AUTHOR".toList ∈ (["AUTHOR".toList, "BYLINE".toList] : List Str) ∧
      "AUTHOR".toList ≠ ([] : Str)) ∧
    ∃ i, (buildCompare ["AUTHOR".toList, "BYLINE".toList]).words[i]? =
        some "AUTHOR".toList ∧
      ∀ t ∈ trigramsOf "AUTHOR".toList,
        i ∈ triLookup (buildCompare ["AUTHOR".toList, "BYLINE".toList]).trigrams t :=
  ⟨⟨by decide, by decide⟩,
    trigram_index_roundtrip ["AUTHOR".toList, "BYLINE".toList] "AUTHOR".toList
      (by decide) (by decide)⟩

/-- C4 counterexample: the candidate's match count is 17 of 35 trigrams, so
the similarity rounded to the nearest integer is 49% — at least 49 — yet
`eval` returns nothing for it, because the source compares the *unrounded*
percentage (48.57…) against the threshold. -/
theorem trigram_threshold_cex :
    (evalMatches (buildCompare [c4Word]) c4Cand).getD 0 0 = 17 ∧
    (buildCompare [c4Word]).word_trigram_count.getD 0 0 = 35 ∧
    49 ≤ jsRoundPct 17 35 ∧
    evalEntries (buildCompare [c4Word]) c4Cand = [] := by
  decide

/-- C4 (amended): `eval` returns exactly those vocabulary tokens whose
*unrounded* similarity percentage is at least 49 (`100·matches ≥ 49·count`),
each reported with the rounded similarity, sorted descending by raw match
count; scoring a string equal to a vocabulary token reports that token with
100% similarity (shown at the source's author vocabulary). -/
theorem trigram_eval_spec :
    (∀ (vocab : List Str) (cand : Str) (e : ScoreEntry),
      e ∈ evalEntries (buildCompare vocab) cand ↔
        ∃ i, i < (buildCompare vocab).trigrams_count.length ∧
          49 * (buildCompare vocab).word_trigram_count.getD i 0 ≤
            100 * (evalMatches (buildCompare vocab) cand).getD i 0 ∧
          e = ⟨(buildCompare vocab).words.getD i [],
            (evalMatches (buildCompare vocab) cand).getD i 0,
            jsRoundPct ((evalMatches (buildCompare vocab) cand).getD i 0)
              ((buildCompare vocab).word_trigram_count.getD i 0)⟩) ∧
    (∀ (vocab : List Str) (cand : Str),
      (evalEntries (buildCompare vocab) cand).Pairwise
        (fun a b => b.matchCount ≤ a.matchCount)) ∧
    evalEntries (buildCompare ["AUTHOR".toList, "BYLINE".toList]) "AUTHOR".toList
      = [⟨"AUTHOR".toList, 8, 100⟩] :=
  ⟨fun vocab cand e => evalEntries_mem_iff (buildCompare vocab) cand e,
    fun vocab cand => evalEntries_sorted (buildCompare vocab) cand,
    by decide⟩

/-- Witness for C4 (amended): the membership characterisation instantiated at
the author vocabulary, producing the 100%-similarity entry for the exact
token. -/
theorem trigram_eval_spec_witness :
    (⟨"AUTHOR".toList, 8, 100⟩ : ScoreEntry) ∈
      evalEntries (buildCompare ["AUTHOR".toList, "BYLINE".toList])
        "AUTHOR".toList :=
  (trigram_eval_spec.1 ["AUTHOR".toList, "BYLINE".toList] "AUTHOR".toList
      ⟨"AUTHOR".toList, 8, 100⟩).mpr
    ⟨0, by decide, by decide, by decide⟩

set_option maxRecDepth 1000000 in
set_option maxHeartbeats 40000000 in
/-- C7 counterexample: the noise-cleaning pass is not idempotent.  On
`cleanCex` no pattern fires and both lines survive the filter, so the first
pass only collapses the line break to a space, joining "Sign up" and "for"
into one 41-character line; a second pass then matches the `Sign up for`
rest-of-line pattern, truncates the line to its first 13 characters, and
the line filter drops the (now 12-character trimmed) remainder, ending at
the empty string. -/
theorem clean_not_idempotent :
    clean_extracted_content (clean_extracted_content cleanCex) ≠
      clean_extracted_content cleanCex := by
  have h1 : clean_extracted_content cleanCex =
      "%%%%%%%%%%%% Sign up for %%%%%%%%%%%%%%%%".toList := by decide
  have h2 : clean_extracted_content
      "%%%%%%%%%%%% Sign up for %%%%%%%%%%%%%%%%".toList = [] := by decide
  rw [h1, h2]
  decide

/-- C7 (amended): the cleaning pass is idempotent on already-clean text — on
every fixed point of `clean_extracted_content` — but not on arbitrary input
(see the counterexample). -/
theorem clean_idempotent_on_clean (x : Str)
    (h : clean_extracted_content x = x) :
    clean_extracted_content (clean_extracted_content x) =
      clean_extracted_content x := by
  rw [h]
  exact h

/-- Witness for C7 (amended): the empty string is a fixed point. -/
theorem clean_idempotent_on_clean_witness :
    clean_extracted_content ([] : Str) = ([] : Str) ∧
    clean_extracted_content (clean_extracted_content ([] : Str)) =
      clean_extracted_content ([] : Str) :=
  ⟨rfl, clean_idempotent_on_clean [] rfl⟩
